import Mathlib

/-!
Verification development for the banana-box 3D configurator repository.

The JavaScript sources are shallowly embedded here:
* `src/boxGeometry.js` : UV-unwrapping math (`calculateUnfoldedUVLayout`),
  the procedural banana prop (`createBanana`);
* `src/app.js` : banana grid-packing placement inside the box
  (`createBananas`), the disposal prologue of `createBox`;
* `src/textureLoader.js` (the unnamed source file `src/unnamed/part_000`) :
  `getBrandFileName`, `createFallbackTexture`, `loadTexture` and the
  per-brand cropped-texture-set loaders.

JavaScript numbers are idealised as rationals (`ℚ`); asynchronous loads
are embedded as pure state transformers taking the outcome of the
external load (success or failure) as an explicit argument.
-/

namespace BananaBox

/-! ### UV layout, from src/boxGeometry.js (calculateUnfoldedUVLayout) -/

/-- One face's four UV corner coordinates, as produced per face by
`calculateUnfoldedUVLayout` (u1..v4 in source order: bottom-left,
bottom-right, top-right, top-left corners of the face's texture region,
where larger v is lower in the texture). -/
structure FaceUV where
  u1 : ℚ
  v1 : ℚ
  u2 : ℚ
  v2 : ℚ
  u3 : ℚ
  v3 : ℚ
  u4 : ℚ
  v4 : ℚ
  deriving DecidableEq

/-- The record returned by `calculateUnfoldedUVLayout`: UV regions for the
five mapped faces of the box. -/
structure UVLayout where
  bottom : FaceUV
  front : FaceUV
  back : FaceUV
  left : FaceUV
  right : FaceUV
  deriving DecidableEq

/-- `const margin = 0.05` (src/boxGeometry.js line 127). -/
def margin : ℚ := 5 / 100

/-- `const usableWidth = 1.0 - 2 * margin` (line 128). -/
def usableWidth : ℚ := 1 - 2 * margin

/-- `const usableHeight = 1.0 - 2 * margin` (line 129). -/
def usableHeight : ℚ := 1 - 2 * margin

/-- `const layoutWidth = depth + width + depth` (line 123). -/
def layoutWidth (width depth : ℚ) : ℚ := depth + width + depth

/-- `const layoutHeight = height + depth + height` (line 124). -/
def layoutHeight (height depth : ℚ) : ℚ := height + depth + height

/-- `const normWidth = (width / layoutWidth) * usableWidth` (line 132). -/
def normWidth (width depth : ℚ) : ℚ := width / layoutWidth width depth * usableWidth

/-- `const normHeight = (height / layoutHeight) * usableHeight` (line 133). -/
def normHeight (height depth : ℚ) : ℚ := height / layoutHeight height depth * usableHeight

/-- `const normDepth = (depth / layoutHeight) * usableHeight` (line 134). -/
def normDepth (height depth : ℚ) : ℚ := depth / layoutHeight height depth * usableHeight

/-- `const normDepthSide = (depth / layoutWidth) * usableWidth` (line 135). -/
def normDepthSide (width depth : ℚ) : ℚ := depth / layoutWidth width depth * usableWidth

/-- `const centerU = 0.5` (line 138). -/
def centerU : ℚ := 1 / 2

/-- `const centerV = 0.5` (line 139). -/
def centerV : ℚ := 1 / 2

/-- `const bottomLeft = centerU - normWidth / 2` (line 142). -/
def bottomLeft (width depth : ℚ) : ℚ := centerU - normWidth width depth / 2

/-- `const bottomRight = centerU + normWidth / 2` (line 143). -/
def bottomRight (width depth : ℚ) : ℚ := centerU + normWidth width depth / 2

/-- `const bottomTop = centerV - normDepth / 2` (line 144). -/
def bottomTop (height depth : ℚ) : ℚ := centerV - normDepth height depth / 2

/-- `const bottomBottom = centerV + normDepth / 2` (line 145). -/
def bottomBottom (height depth : ℚ) : ℚ := centerV + normDepth height depth / 2

/-- `const frontLeft = bottomLeft` (line 148). -/
def frontLeft (width depth : ℚ) : ℚ := bottomLeft width depth

/-- `const frontRight = bottomRight` (line 149). -/
def frontRight (width depth : ℚ) : ℚ := bottomRight width depth

/-- `const frontTop = bottomBottom` (line 150). -/
def frontTop (height depth : ℚ) : ℚ := bottomBottom height depth

/-- `const frontBottom = frontTop + normHeight` (line 151). -/
def frontBottom (height depth : ℚ) : ℚ := frontTop height depth + normHeight height depth

/-- `const backLeft = bottomLeft` (line 154). -/
def backLeft (width depth : ℚ) : ℚ := bottomLeft width depth

/-- `const backRight = bottomRight` (line 155). -/
def backRight (width depth : ℚ) : ℚ := bottomRight width depth

/-- `const backBottom = bottomTop` (line 156). -/
def backBottom (height depth : ℚ) : ℚ := bottomTop height depth

/-- `const backTop = backBottom - normHeight` (line 157). -/
def backTop (height depth : ℚ) : ℚ := backBottom height depth - normHeight height depth

/-- `const leftRight = bottomLeft` (line 160). -/
def leftRight (width depth : ℚ) : ℚ := bottomLeft width depth

/-- `const leftLeft = leftRight - normDepthSide` (line 161). -/
def leftLeft (width depth : ℚ) : ℚ := leftRight width depth - normDepthSide width depth

/-- `const leftTop = bottomTop` (line 162). -/
def leftTop (height depth : ℚ) : ℚ := bottomTop height depth

/-- `const leftBottom = bottomBottom` (line 163). -/
def leftBottom (height depth : ℚ) : ℚ := bottomBottom height depth

/-- `const rightLeft = bottomRight` (line 166). -/
def rightLeft (width depth : ℚ) : ℚ := bottomRight width depth

/-- `const rightRight = rightLeft + normDepthSide` (line 167). -/
def rightRight (width depth : ℚ) : ℚ := rightLeft width depth + normDepthSide width depth

/-- `const rightTop = bottomTop` (line 168). -/
def rightTop (height depth : ℚ) : ℚ := bottomTop height depth

/-- `const rightBottom = bottomBottom` (line 169). -/
def rightBottom (height depth : ℚ) : ℚ := bottomBottom height depth

/-- `calculateUnfoldedUVLayout(width, height, depth)`
(src/boxGeometry.js lines 121-223): the returned record of per-face UV
corner coordinates. -/
def calculateUnfoldedUVLayout (width height depth : ℚ) : UVLayout :=
  { bottom :=
      { u1 := bottomLeft width depth, v1 := bottomBottom height depth
        u2 := bottomRight width depth, v2 := bottomBottom height depth
        u3 := bottomRight width depth, v3 := bottomTop height depth
        u4 := bottomLeft width depth, v4 := bottomTop height depth }
    front :=
      { u1 := frontLeft width depth, v1 := frontBottom height depth
        u2 := frontRight width depth, v2 := frontBottom height depth
        u3 := frontRight width depth, v3 := frontTop height depth
        u4 := frontLeft width depth, v4 := frontTop height depth }
    back :=
      { u1 := backLeft width depth, v1 := backBottom height depth
        u2 := backRight width depth, v2 := backBottom height depth
        u3 := backRight width depth, v3 := backTop height depth
        u4 := backLeft width depth, v4 := backTop height depth }
    left :=
      { u1 := leftLeft width depth, v1 := leftBottom height depth
        u2 := leftRight width depth, v2 := leftBottom height depth
        u3 := leftRight width depth, v3 := leftTop height depth
        u4 := leftLeft width depth, v4 := leftTop height depth }
    right :=
      { u1 := rightLeft width depth, v1 := rightBottom height depth
        u2 := rightRight width depth, v2 := rightBottom height depth
        u3 := rightRight width depth, v3 := rightTop height depth
        u4 := rightLeft width depth, v4 := rightTop height depth } }

/-- A UV coordinate lies in the 5 percent margin band of the unit square. -/
def inBand (x : ℚ) : Prop := 5 / 100 ≤ x ∧ x ≤ 95 / 100

instance (x : ℚ) : Decidable (inBand x) := by unfold inBand; infer_instance

/-- All eight corner coordinates of a face region lie in the margin band. -/
def faceInBand (f : FaceUV) : Prop :=
  inBand f.u1 ∧ inBand f.v1 ∧ inBand f.u2 ∧ inBand f.v2 ∧
  inBand f.u3 ∧ inBand f.v3 ∧ inBand f.u4 ∧ inBand f.v4

instance (f : FaceUV) : Decidable (faceInBand f) := by unfold faceInBand; infer_instance

/-- Leftmost u of a face region (corner order insensitive). -/
def FaceUV.uMin (f : FaceUV) : ℚ := min (min f.u1 f.u2) (min f.u3 f.u4)

/-- Rightmost u of a face region. -/
def FaceUV.uMax (f : FaceUV) : ℚ := max (max f.u1 f.u2) (max f.u3 f.u4)

/-- Smallest v of a face region. -/
def FaceUV.vMin (f : FaceUV) : ℚ := min (min f.v1 f.v2) (min f.v3 f.v4)

/-- Largest v of a face region. -/
def FaceUV.vMax (f : FaceUV) : ℚ := max (max f.v1 f.v2) (max f.v3 f.v4)

/-- Two face regions overlap in area: their u-spans and v-spans both
intersect with nonempty interior. -/
def facesOverlap (f g : FaceUV) : Prop :=
  f.uMin < g.uMax ∧ g.uMin < f.uMax ∧ f.vMin < g.vMax ∧ g.vMin < f.vMax

instance (f g : FaceUV) : Decidable (facesOverlap f g) := by
  unfold facesOverlap; infer_instance

theorem layoutWidth_pos {w d : ℚ} (hw : 0 < w) (hd : 0 < d) : 0 < layoutWidth w d := by
  unfold layoutWidth; linarith

theorem layoutHeight_pos {h d : ℚ} (hh : 0 < h) (hd : 0 < d) : 0 < layoutHeight h d := by
  unfold layoutHeight; linarith

theorem normWidth_pos {w d : ℚ} (hw : 0 < w) (hd : 0 < d) : 0 < normWidth w d := by
  have hlw := layoutWidth_pos hw hd
  unfold normWidth usableWidth margin
  have h1 : 0 < w / layoutWidth w d := div_pos hw hlw
  nlinarith

theorem normWidth_lt {w d : ℚ} (hw : 0 < w) (hd : 0 < d) : normWidth w d < 9 / 10 := by
  have hlw := layoutWidth_pos hw hd
  have h1 : w / layoutWidth w d < 1 :=
    (div_lt_one hlw).mpr (by unfold layoutWidth; linarith)
  unfold normWidth usableWidth margin
  nlinarith

theorem normHeight_pos {h d : ℚ} (hh : 0 < h) (hd : 0 < d) : 0 < normHeight h d := by
  have hlh := layoutHeight_pos hh hd
  unfold normHeight usableHeight margin
  have h1 : 0 < h / layoutHeight h d := div_pos hh hlh
  nlinarith

theorem normDepth_pos {h d : ℚ} (hh : 0 < h) (hd : 0 < d) : 0 < normDepth h d := by
  have hlh := layoutHeight_pos hh hd
  unfold normDepth usableHeight margin
  have h1 : 0 < d / layoutHeight h d := div_pos hd hlh
  nlinarith

theorem normDepth_lt {h d : ℚ} (hh : 0 < h) (hd : 0 < d) : normDepth h d < 9 / 10 := by
  have hlh := layoutHeight_pos hh hd
  have h1 : d / layoutHeight h d < 1 :=
    (div_lt_one hlh).mpr (by unfold layoutHeight; linarith)
  unfold normDepth usableHeight margin
  nlinarith

theorem normDepthSide_pos {w d : ℚ} (hw : 0 < w) (hd : 0 < d) :
    0 < normDepthSide w d := by
  have hlw := layoutWidth_pos hw hd
  unfold normDepthSide usableWidth margin
  have h1 : 0 < d / layoutWidth w d := div_pos hd hlw
  nlinarith

/-- The bottom width plus the two side depths fill the usable u band exactly. -/
theorem normWidth_add_sides {w d : ℚ} (hw : 0 < w) (hd : 0 < d) :
    normWidth w d + 2 * normDepthSide w d = 9 / 10 := by
  have hlw : layoutWidth w d ≠ 0 := ne_of_gt (layoutWidth_pos hw hd)
  unfold normWidth normDepthSide usableWidth margin
  unfold layoutWidth at hlw ⊢
  field_simp
  ring

/-- The bottom depth plus the two heights fill the usable v band exactly. -/
theorem normDepth_add_heights {h d : ℚ} (hh : 0 < h) (hd : 0 < d) :
    normDepth h d + 2 * normHeight h d = 9 / 10 := by
  have hlh : layoutHeight h d ≠ 0 := ne_of_gt (layoutHeight_pos hh hd)
  unfold normDepth normHeight usableHeight margin
  unfold layoutHeight at hlh ⊢
  field_simp
  ring

/-- The bottom edge of the front face region lies exactly on the margin line. -/
theorem frontBottom_eq {h d : ℚ} (hh : 0 < h) (hd : 0 < d) :
    frontBottom h d = 95 / 100 := by
  have := normDepth_add_heights hh hd
  unfold frontBottom frontTop bottomBottom centerV
  linarith

/-- The top edge of the back face region lies exactly on the margin line. -/
theorem backTop_eq {h d : ℚ} (hh : 0 < h) (hd : 0 < d) :
    backTop h d = 5 / 100 := by
  have := normDepth_add_heights hh hd
  unfold backTop backBottom bottomTop centerV
  linarith

/-- The left edge of the left face region lies exactly on the margin line. -/
theorem leftLeft_eq {w d : ℚ} (hw : 0 < w) (hd : 0 < d) :
    leftLeft w d = 5 / 100 := by
  have := normWidth_add_sides hw hd
  unfold leftLeft leftRight bottomLeft centerU
  linarith

/-- The right edge of the right face region lies exactly on the margin line. -/
theorem rightRight_eq {w d : ℚ} (hw : 0 < w) (hd : 0 < d) :
    rightRight w d = 95 / 100 := by
  have := normWidth_add_sides hw hd
  unfold rightRight rightLeft bottomRight centerU
  linarith

/-- C4: for every positive width, height and depth, every UV coordinate
produced by `calculateUnfoldedUVLayout` for the five mapped faces lies in
the margin band [0.05, 0.95] of the unit square, and the outermost extents
`frontBottom`, `backTop`, `leftLeft`, `rightRight` equal exactly 0.95,
0.05, 0.05 and 0.95. -/
theorem C4_uv_margin_band (w h d : ℚ) (hw : 0 < w) (hh : 0 < h) (hd : 0 < d) :
    faceInBand (calculateUnfoldedUVLayout w h d).bottom ∧
    faceInBand (calculateUnfoldedUVLayout w h d).front ∧
    faceInBand (calculateUnfoldedUVLayout w h d).back ∧
    faceInBand (calculateUnfoldedUVLayout w h d).left ∧
    faceInBand (calculateUnfoldedUVLayout w h d).right ∧
    frontBottom h d = 95 / 100 ∧ backTop h d = 5 / 100 ∧
    leftLeft w d = 5 / 100 ∧ rightRight w d = 95 / 100 := by
  have hnw1 := normWidth_pos hw hd
  have hnw2 := normWidth_lt hw hd
  have hnd1 := normDepth_pos hh hd
  have hnd2 := normDepth_lt hh hd
  have hfb := frontBottom_eq hh hd
  have hbk := backTop_eq hh hd
  have hll := leftLeft_eq hw hd
  have hrr := rightRight_eq hw hd
  have ibl : inBand (bottomLeft w d) := by
    unfold inBand bottomLeft centerU; constructor <;> linarith
  have ibr : inBand (bottomRight w d) := by
    unfold inBand bottomRight centerU; constructor <;> linarith
  have ibt : inBand (bottomTop h d) := by
    unfold inBand bottomTop centerV; constructor <;> linarith
  have ibb : inBand (bottomBottom h d) := by
    unfold inBand bottomBottom centerV; constructor <;> linarith
  have ifb : inBand (frontBottom h d) := by
    rw [hfb]; unfold inBand; norm_num
  have ibk : inBand (backTop h d) := by
    rw [hbk]; unfold inBand; norm_num
  have ill : inBand (leftLeft w d) := by
    rw [hll]; unfold inBand; norm_num
  have irr : inBand (rightRight w d) := by
    rw [hrr]; unfold inBand; norm_num
  exact ⟨⟨ibl, ibb, ibr, ibb, ibr, ibt, ibl, ibt⟩,
    ⟨ibl, ifb, ibr, ifb, ibr, ibb, ibl, ibb⟩,
    ⟨ibl, ibt, ibr, ibt, ibr, ibk, ibl, ibk⟩,
    ⟨ill, ibb, ibl, ibb, ibl, ibt, ill, ibt⟩,
    ⟨ibr, ibb, irr, ibb, irr, ibt, ibr, ibt⟩,
    hfb, hbk, hll, hrr⟩

/-- Witness for C4 at width = height = depth = 1. -/
theorem C4_uv_margin_band_witness :
    faceInBand (calculateUnfoldedUVLayout 1 1 1).bottom ∧
    faceInBand (calculateUnfoldedUVLayout 1 1 1).front ∧
    faceInBand (calculateUnfoldedUVLayout 1 1 1).back ∧
    faceInBand (calculateUnfoldedUVLayout 1 1 1).left ∧
    faceInBand (calculateUnfoldedUVLayout 1 1 1).right ∧
    frontBottom 1 1 = 95 / 100 ∧ backTop 1 1 = 5 / 100 ∧
    leftLeft 1 1 = 5 / 100 ∧ rightRight 1 1 = 95 / 100 :=
  C4_uv_margin_band 1 1 1 one_pos one_pos one_pos

theorem minmin {a b : ℚ} (h : a ≤ b) : min (min a b) (min b a) = a := by
  rw [min_comm b a, min_self, min_eq_left h]

theorem maxmax {a b : ℚ} (h : a ≤ b) : max (max a b) (max b a) = b := by
  rw [max_comm b a, max_self, max_eq_right h]

theorem minpair {a b : ℚ} (h : b ≤ a) : min (min a a) (min b b) = b := by
  rw [min_self, min_self, min_eq_right h]

theorem maxpair {a b : ℚ} (h : b ≤ a) : max (max a a) (max b b) = a := by
  rw [max_self, max_self, max_eq_left h]

theorem no_overlap_of_u_le {f g : FaceUV} (h : f.uMax ≤ g.uMin) :
    ¬ facesOverlap f g := fun hov => absurd hov.2.1 (not_lt.mpr h)

theorem no_overlap_of_u_ge {f g : FaceUV} (h : g.uMax ≤ f.uMin) :
    ¬ facesOverlap f g := fun hov => absurd hov.1 (not_lt.mpr h)

theorem no_overlap_of_v_le {f g : FaceUV} (h : f.vMax ≤ g.vMin) :
    ¬ facesOverlap f g := fun hov => absurd hov.2.2.2 (not_lt.mpr h)

theorem no_overlap_of_v_ge {f g : FaceUV} (h : g.vMax ≤ f.vMin) :
    ¬ facesOverlap f g := fun hov => absurd hov.2.2.1 (not_lt.mpr h)

/-- C5: the five UV regions form a connected box net around the bottom
face (the front shares the bottom's lower edge, the back its upper edge,
the left and right its side edges, each with the same span), and no two of
the five regions overlap in area. -/
theorem C5_box_net (w h d : ℚ) (hw : 0 < w) (hh : 0 < h) (hd : 0 < d) :
    frontTop h d = bottomBottom h d ∧ frontLeft w d = bottomLeft w d ∧
    frontRight w d = bottomRight w d ∧ backBottom h d = bottomTop h d ∧
    backLeft w d = bottomLeft w d ∧ backRight w d = bottomRight w d ∧
    leftRight w d = bottomLeft w d ∧ rightLeft w d = bottomRight w d ∧
    leftTop h d = bottomTop h d ∧ leftBottom h d = bottomBottom h d ∧
    rightTop h d = bottomTop h d ∧ rightBottom h d = bottomBottom h d ∧
    ¬ facesOverlap (calculateUnfoldedUVLayout w h d).bottom (calculateUnfoldedUVLayout w h d).front ∧
    ¬ facesOverlap (calculateUnfoldedUVLayout w h d).bottom (calculateUnfoldedUVLayout w h d).back ∧
    ¬ facesOverlap (calculateUnfoldedUVLayout w h d).bottom (calculateUnfoldedUVLayout w h d).left ∧
    ¬ facesOverlap (calculateUnfoldedUVLayout w h d).bottom (calculateUnfoldedUVLayout w h d).right ∧
    ¬ facesOverlap (calculateUnfoldedUVLayout w h d).front (calculateUnfoldedUVLayout w h d).back ∧
    ¬ facesOverlap (calculateUnfoldedUVLayout w h d).front (calculateUnfoldedUVLayout w h d).left ∧
    ¬ facesOverlap (calculateUnfoldedUVLayout w h d).front (calculateUnfoldedUVLayout w h d).right ∧
    ¬ facesOverlap (calculateUnfoldedUVLayout w h d).back (calculateUnfoldedUVLayout w h d).left ∧
    ¬ facesOverlap (calculateUnfoldedUVLayout w h d).back (calculateUnfoldedUVLayout w h d).right ∧
    ¬ facesOverlap (calculateUnfoldedUVLayout w h d).left (calculateUnfoldedUVLayout w h d).right := by
  have hblbr : bottomLeft w d ≤ bottomRight w d := by
    unfold bottomLeft bottomRight; linarith [normWidth_pos hw hd]
  have hbtbb : bottomTop h d ≤ bottomBottom h d := by
    unfold bottomTop bottomBottom; linarith [normDepth_pos hh hd]
  have hftfb : frontTop h d ≤ frontBottom h d := by
    unfold frontBottom; linarith [normHeight_pos hh hd]
  have hbkb : backTop h d ≤ backBottom h d := by
    unfold backTop; linarith [normHeight_pos hh hd]
  have hlllr : leftLeft w d ≤ leftRight w d := by
    unfold leftLeft; linarith [normDepthSide_pos hw hd]
  have hrlrr : rightLeft w d ≤ rightRight w d := by
    unfold rightRight; linarith [normDepthSide_pos hw hd]
  have bumin : (calculateUnfoldedUVLayout w h d).bottom.uMin = bottomLeft w d := minmin hblbr
  have bumax : (calculateUnfoldedUVLayout w h d).bottom.uMax = bottomRight w d := maxmax hblbr
  have bvmin : (calculateUnfoldedUVLayout w h d).bottom.vMin = bottomTop h d := minpair hbtbb
  have bvmax : (calculateUnfoldedUVLayout w h d).bottom.vMax = bottomBottom h d := maxpair hbtbb
  have fumin : (calculateUnfoldedUVLayout w h d).front.uMin = bottomLeft w d := minmin hblbr
  have fumax : (calculateUnfoldedUVLayout w h d).front.uMax = bottomRight w d := maxmax hblbr
  have fvmin : (calculateUnfoldedUVLayout w h d).front.vMin = bottomBottom h d := minpair hftfb
  have fvmax : (calculateUnfoldedUVLayout w h d).front.vMax = frontBottom h d := maxpair hftfb
  have kumin : (calculateUnfoldedUVLayout w h d).back.uMin = bottomLeft w d := minmin hblbr
  have kumax : (calculateUnfoldedUVLayout w h d).back.uMax = bottomRight w d := maxmax hblbr
  have kvmin : (calculateUnfoldedUVLayout w h d).back.vMin = backTop h d := minpair hbkb
  have kvmax : (calculateUnfoldedUVLayout w h d).back.vMax = bottomTop h d := maxpair hbkb
  have lumin : (calculateUnfoldedUVLayout w h d).left.uMin = leftLeft w d := minmin hlllr
  have lumax : (calculateUnfoldedUVLayout w h d).left.uMax = bottomLeft w d := maxmax hlllr
  have lvmin : (calculateUnfoldedUVLayout w h d).left.vMin = bottomTop h d := minpair hbtbb
  have lvmax : (calculateUnfoldedUVLayout w h d).left.vMax = bottomBottom h d := maxpair hbtbb
  have rumin : (calculateUnfoldedUVLayout w h d).right.uMin = bottomRight w d := minmin hrlrr
  have rumax : (calculateUnfoldedUVLayout w h d).right.uMax = rightRight w d := maxmax hrlrr
  have rvmin : (calculateUnfoldedUVLayout w h d).right.vMin = bottomTop h d := minpair hbtbb
  have rvmax : (calculateUnfoldedUVLayout w h d).right.vMax = bottomBottom h d := maxpair hbtbb
  refine ⟨rfl, rfl, rfl, rfl, rfl, rfl, rfl, rfl, rfl, rfl, rfl, rfl,
    ?_, ?_, ?_, ?_, ?_, ?_, ?_, ?_, ?_, ?_⟩
  · exact no_overlap_of_v_le (by rw [bvmax, fvmin])
  · exact no_overlap_of_v_ge (by rw [kvmax, bvmin])
  · exact no_overlap_of_u_ge (by rw [lumax, bumin])
  · exact no_overlap_of_u_le (by rw [bumax, rumin])
  · exact no_overlap_of_v_ge (by rw [kvmax, fvmin]; exact hbtbb)
  · exact no_overlap_of_u_ge (by rw [lumax, fumin])
  · exact no_overlap_of_u_le (by rw [fumax, rumin])
  · exact no_overlap_of_u_ge (by rw [lumax, kumin])
  · exact no_overlap_of_u_le (by rw [kumax, rumin])
  · exact no_overlap_of_u_le (by rw [lumax, rumin]; exact hblbr)

/-- Witness for C5 at width = height = depth = 1. -/
theorem C5_box_net_witness :
    frontTop 1 1 = bottomBottom 1 1 ∧ frontLeft 1 1 = bottomLeft 1 1 ∧
    frontRight 1 1 = bottomRight 1 1 ∧ backBottom 1 1 = bottomTop 1 1 ∧
    backLeft 1 1 = bottomLeft 1 1 ∧ backRight 1 1 = bottomRight 1 1 ∧
    leftRight 1 1 = bottomLeft 1 1 ∧ rightLeft 1 1 = bottomRight 1 1 ∧
    leftTop 1 1 = bottomTop 1 1 ∧ leftBottom 1 1 = bottomBottom 1 1 ∧
    rightTop 1 1 = bottomTop 1 1 ∧ rightBottom 1 1 = bottomBottom 1 1 ∧
    ¬ facesOverlap (calculateUnfoldedUVLayout 1 1 1).bottom (calculateUnfoldedUVLayout 1 1 1).front ∧
    ¬ facesOverlap (calculateUnfoldedUVLayout 1 1 1).bottom (calculateUnfoldedUVLayout 1 1 1).back ∧
    ¬ facesOverlap (calculateUnfoldedUVLayout 1 1 1).bottom (calculateUnfoldedUVLayout 1 1 1).left ∧
    ¬ facesOverlap (calculateUnfoldedUVLayout 1 1 1).bottom (calculateUnfoldedUVLayout 1 1 1).right ∧
    ¬ facesOverlap (calculateUnfoldedUVLayout 1 1 1).front (calculateUnfoldedUVLayout 1 1 1).back ∧
    ¬ facesOverlap (calculateUnfoldedUVLayout 1 1 1).front (calculateUnfoldedUVLayout 1 1 1).left ∧
    ¬ facesOverlap (calculateUnfoldedUVLayout 1 1 1).front (calculateUnfoldedUVLayout 1 1 1).right ∧
    ¬ facesOverlap (calculateUnfoldedUVLayout 1 1 1).back (calculateUnfoldedUVLayout 1 1 1).left ∧
    ¬ facesOverlap (calculateUnfoldedUVLayout 1 1 1).back (calculateUnfoldedUVLayout 1 1 1).right ∧
    ¬ facesOverlap (calculateUnfoldedUVLayout 1 1 1).left (calculateUnfoldedUVLayout 1 1 1).right :=
  C5_box_net 1 1 1 one_pos one_pos one_pos

/-! ### Banana grid packing, from src/app.js (createBananas, lines 849-1020) -/

/-- A 3D size or position vector with rational components. -/
structure Vec3 where
  x : ℚ
  y : ℚ
  z : ℚ
  deriving DecidableEq

/-- `const wallThickness = 0.02` (src/app.js line 873): 2mm wall
thickness in scene units (1 unit = 100mm). -/
def wallThickness : ℚ := 2 / 100

/-- `internalSize` (lines 874-878): the internal cavity size obtained from
the box bounding-box size by subtracting the wall thickness on both side
walls in X and Z and on the bottom only in Y (the top is open). -/
def internalSize (boxSize : Vec3) : Vec3 :=
  { x := boxSize.x - wallThickness * 2
    y := boxSize.y - wallThickness
    z := boxSize.z - wallThickness * 2 }

/-- `const bananaRows = 2` (line 882). -/
def bananaRows : ℕ := 2

/-- `const bananaCols = 4` (line 883). -/
def bananaCols : ℕ := 4

/-- `const countY = 1` (line 884): a single layer of bananas. -/
def countY : ℕ := 1

/-- `const cellX = internalSize.x / bananaCols` (line 887). -/
def cellX (internal : Vec3) : ℚ := internal.x / (bananaCols : ℚ)

/-- `const cellY = internalSize.y / countY` (line 888). -/
def cellY (internal : Vec3) : ℚ := internal.y / (countY : ℚ)

/-- `const cellZ = internalSize.z / bananaRows` (line 889). -/
def cellZ (internal : Vec3) : ℚ := internal.z / (bananaRows : ℚ)

/-- `scaleFactor = Math.min(scaleX, scaleY, scaleZ)` (lines 892-895): the
minimum over the three axes of cell extent over banana bounding-box
extent. -/
def scaleFactor (bananaSize internal : Vec3) : ℚ :=
  min (min (cellX internal / bananaSize.x) (cellY internal / bananaSize.y))
    (cellZ internal / bananaSize.z)

/-- `scaledBananaSize` (line 898): the banana bounding-box size multiplied
by the scale factor. -/
def scaledBananaSize (bananaSize internal : Vec3) : Vec3 :=
  { x := bananaSize.x * scaleFactor bananaSize internal
    y := bananaSize.y * scaleFactor bananaSize internal
    z := bananaSize.z * scaleFactor bananaSize internal }

/-- The X/Z extent of the internal cavity of the box (lines 930-947):
the box bounding box shrunk by the wall thickness on each side. -/
structure Cavity where
  minX : ℚ
  maxX : ℚ
  minZ : ℚ
  maxZ : ℚ
  deriving DecidableEq

/-- The X/Z bounding box of a placed banana prop. -/
structure BBox2 where
  minX : ℚ
  maxX : ℚ
  minZ : ℚ
  maxZ : ℚ
  deriving DecidableEq

/-- `internalMin`/`internalMax` (lines 932-947) restricted to X and Z:
the box bounding box inset by `wallThickness` on every side wall. -/
def internalCavity (boxMinX boxMaxX boxMinZ boxMaxZ : ℚ) : Cavity :=
  { minX := boxMinX + wallThickness
    maxX := boxMaxX - wallThickness
    minZ := boxMinZ + wallThickness
    maxZ := boxMaxZ - wallThickness }

/-- `const spacingX = (internalMaxX - internalMinX) / bananaCols` (line 950). -/
def spacingX (cv : Cavity) : ℚ := (cv.maxX - cv.minX) / (bananaCols : ℚ)

/-- `const spacingZ = (internalMaxZ - internalMinZ) / bananaRows` (line 951). -/
def spacingZ (cv : Cavity) : ℚ := (cv.maxZ - cv.minZ) / (bananaRows : ℚ)

/-- `const centerX = internalMinX + spacingX * (c + 0.5)` (line 977). -/
def cellCenterX (cv : Cavity) (c : ℕ) : ℚ := cv.minX + spacingX cv * ((c : ℚ) + 1 / 2)

/-- `const centerZ = internalMinZ + spacingZ * (r + 0.5)` (line 978). -/
def cellCenterZ (cv : Cavity) (r : ℕ) : ℚ := cv.minZ + spacingZ cv * ((r : ℚ) + 1 / 2)

/-- The bounding box of one scaled, randomly rotated banana clone,
expressed relative to the clone's pivot position: moving the clone by a
translation moves the bounding box by the same translation, so the box
computed by `new THREE.Box3().setFromObject(banana)` at position `p` is
`[p + min, p + max]` per axis. The random rotation (lines 961-963) is
absorbed into these offsets. -/
structure BBOffsets where
  minX : ℚ
  maxX : ℚ
  minZ : ℚ
  maxZ : ℚ
  deriving DecidableEq

/-- The position shift applied by one clamping step (lines 990-1001,
identical in shape for X and Z): move right if the bounding box sticks out
on the low side, else move left if it sticks out on the high side. -/
def clampShift (bbMin bbMax lo hi : ℚ) : ℚ :=
  if bbMin < lo then lo - bbMin
  else if hi < bbMax then hi - bbMax
  else 0

/-- The placement of the banana for grid cell (row `r`, column `c`) in the
loop body (lines 953-1007): position at the cell center, then clamp X and
then Z to the cavity bounds. The X clamp does not change the Z coordinates
of the bounding box (it is a pure X translation), so recomputing the
bounding box between the two clamps (line 987 versus line 1007) is the
identity on the Z data; both clamps act on translates of the original
offsets. -/
def placeBanana (cv : Cavity) (r c : ℕ) (off : BBOffsets) : BBox2 :=
  let cX := cellCenterX cv c
  let cZ := cellCenterZ cv r
  let dx := clampShift (cX + off.minX) (cX + off.maxX) cv.minX cv.maxX
  let dz := clampShift (cZ + off.minZ) (cZ + off.maxZ) cv.minZ cv.maxZ
  { minX := cX + off.minX + dx
    maxX := cX + off.maxX + dx
    minZ := cZ + off.minZ + dz
    maxZ := cZ + off.maxZ + dz }

/-- Two placed bounding boxes overlap (share interior area in the X/Z
plane). -/
def bboxOverlap (a b : BBox2) : Prop :=
  a.minX < b.maxX ∧ b.minX < a.maxX ∧ a.minZ < b.maxZ ∧ b.minZ < a.maxZ

instance (a b : BBox2) : Decidable (bboxOverlap a b) := by
  unfold bboxOverlap; infer_instance

/-- After one clamping step, an interval no longer than the cavity lies
inside it. -/
theorem clampShift_within {bbMin bbMax lo hi : ℚ}
    (hsize : bbMax - bbMin ≤ hi - lo) :
    lo ≤ bbMin + clampShift bbMin bbMax lo hi ∧
    bbMax + clampShift bbMin bbMax lo hi ≤ hi := by
  unfold clampShift
  split_ifs with h1 h2 <;> constructor <;> linarith

/-- An interval already inside the bounds is not moved by the clamp. -/
theorem clampShift_eq_zero {bbMin bbMax lo hi : ℚ} (h1 : lo ≤ bbMin)
    (h2 : bbMax ≤ hi) : clampShift bbMin bbMax lo hi = 0 := by
  unfold clampShift
  rw [if_neg (not_lt.mpr h1), if_neg (not_lt.mpr h2)]

/-- C1: for every banana placed by the grid-packing loop, after the X and
Z clamping steps its bounding box lies entirely within the internal cavity
bounds, provided the banana's bounding box is no larger than the cavity
along each of X and Z. -/
theorem C1_clamped_banana_in_cavity (cv : Cavity) (r c : ℕ) (off : BBOffsets)
    (hx : off.maxX - off.minX ≤ cv.maxX - cv.minX)
    (hz : off.maxZ - off.minZ ≤ cv.maxZ - cv.minZ) :
    cv.minX ≤ (placeBanana cv r c off).minX ∧
    (placeBanana cv r c off).maxX ≤ cv.maxX ∧
    cv.minZ ≤ (placeBanana cv r c off).minZ ∧
    (placeBanana cv r c off).maxZ ≤ cv.maxZ := by
  have hX := @clampShift_within (cellCenterX cv c + off.minX)
    (cellCenterX cv c + off.maxX) cv.minX cv.maxX (by linarith)
  have hZ := @clampShift_within (cellCenterZ cv r + off.minZ)
    (cellCenterZ cv r + off.maxZ) cv.minZ cv.maxZ (by linarith)
  exact ⟨hX.1, hX.2, hZ.1, hZ.2⟩

/-- Witness for C1: cavity [0,4]x[0,2], cell (0,0), a banana bounding box
extending 1 in X and 1/2 in Z around its pivot. -/
theorem C1_clamped_banana_in_cavity_witness :
    ((⟨-1, 1, -(1/2), 1/2⟩ : BBOffsets).maxX - (⟨-1, 1, -(1/2), 1/2⟩ : BBOffsets).minX ≤
      (⟨0, 4, 0, 2⟩ : Cavity).maxX - (⟨0, 4, 0, 2⟩ : Cavity).minX) ∧
    ((⟨-1, 1, -(1/2), 1/2⟩ : BBOffsets).maxZ - (⟨-1, 1, -(1/2), 1/2⟩ : BBOffsets).minZ ≤
      (⟨0, 4, 0, 2⟩ : Cavity).maxZ - (⟨0, 4, 0, 2⟩ : Cavity).minZ) ∧
    ((⟨0, 4, 0, 2⟩ : Cavity).minX ≤
      (placeBanana ⟨0, 4, 0, 2⟩ 0 0 ⟨-1, 1, -(1/2), 1/2⟩).minX ∧
    (placeBanana ⟨0, 4, 0, 2⟩ 0 0 ⟨-1, 1, -(1/2), 1/2⟩).maxX ≤ (⟨0, 4, 0, 2⟩ : Cavity).maxX ∧
    (⟨0, 4, 0, 2⟩ : Cavity).minZ ≤ (placeBanana ⟨0, 4, 0, 2⟩ 0 0 ⟨-1, 1, -(1/2), 1/2⟩).minZ ∧
    (placeBanana ⟨0, 4, 0, 2⟩ 0 0 ⟨-1, 1, -(1/2), 1/2⟩).maxZ ≤ (⟨0, 4, 0, 2⟩ : Cavity).maxZ) :=
  ⟨by norm_num, by norm_num,
    C1_clamped_banana_in_cavity ⟨0, 4, 0, 2⟩ 0 0 ⟨-1, 1, -(1/2), 1/2⟩
      (by norm_num) (by norm_num)⟩

/-- C2 counterexample: the placement does not always keep distinct
bananas' bounding boxes disjoint. Internal cavity [0,4]x[0,2] (grid cells
of size 1x1); both bananas in row 0, columns 0 and 1, each with a bounding
box extending 7/10 from the pivot in X and Z — achievable for a scaled
banana whose unrotated footprint fills its 1x1 cell once the random
rotation about Y turns it by about 45 degrees (within the coded range of
0.3*pi), since the rotated axis-aligned extent 7/5 satisfies
(7/5)^2 <= 2 = diagonal^2. Both boxes satisfy the C1 size hypothesis
(extent 7/5 is at most the cavity extent on each axis), yet the two placed
boxes overlap. -/
theorem C2_counterexample :
    ((7/10 : ℚ) - -(7/10) ≤ 4 - 0) ∧ ((7/10 : ℚ) - -(7/10) ≤ 2 - 0) ∧
    ((7/5 : ℚ) * (7/5) ≤ 2) ∧
    bboxOverlap
      (placeBanana ⟨0, 4, 0, 2⟩ 0 0 ⟨-(7/10), 7/10, -(7/10), 7/10⟩)
      (placeBanana ⟨0, 4, 0, 2⟩ 0 1 ⟨-(7/10), 7/10, -(7/10), 7/10⟩) := by
  refine ⟨by norm_num, by norm_num, by norm_num, ?_⟩
  unfold bboxOverlap placeBanana cellCenterX cellCenterZ spacingX spacingZ
    clampShift bananaCols bananaRows
  norm_num

theorem cell_inside {lo hi s n κ e : ℚ} (hs0 : 0 ≤ s) (hsn : s * n = hi - lo)
    (hκ0 : 0 ≤ κ) (hκn : κ + 1 ≤ n) (he : e ≤ s / 2) :
    lo ≤ lo + s * (κ + 1/2) - e ∧ lo + s * (κ + 1/2) + e ≤ hi := by
  constructor
  · nlinarith [mul_nonneg hs0 hκ0]
  · nlinarith [mul_nonneg hs0 (by linarith : 0 ≤ n - (κ + 1))]

theorem cells_disjoint_1d {s κ κ' e e' : ℚ} (hs0 : 0 ≤ s)
    (hκ' : κ + 1 ≤ κ') (he : e ≤ s / 2) (he' : e' ≤ s / 2) :
    s * (κ + 1/2) + e ≤ s * (κ' + 1/2) - e' := by
  nlinarith [mul_nonneg hs0 (by linarith : 0 ≤ κ' - (κ + 1))]

/-- C2 amended: disjointness does hold in the special case where each
banana's bounding box is centered at its pivot and extends at most half a
grid cell in X and in Z (as the unrotated scaled banana with a centered
pivot does): then no clamp fires, every box stays inside its own grid
cell, and distinct cells give disjoint boxes. -/
theorem C2_amended_cellfit_disjoint (cv : Cavity)
    (hcx : cv.minX ≤ cv.maxX) (hcz : cv.minZ ≤ cv.maxZ)
    (r c r' c' : ℕ) (hr : r < bananaRows) (hc : c < bananaCols)
    (hr' : r' < bananaRows) (hc' : c' < bananaCols)
    (hne : (r, c) ≠ (r', c'))
    (off off' : BBOffsets)
    (hs1 : off.minX = -off.maxX) (hs2 : off.minZ = -off.maxZ)
    (hs3 : off'.minX = -off'.maxX) (hs4 : off'.minZ = -off'.maxZ)
    (hf1 : off.maxX ≤ spacingX cv / 2) (hf2 : off.maxZ ≤ spacingZ cv / 2)
    (hf3 : off'.maxX ≤ spacingX cv / 2) (hf4 : off'.maxZ ≤ spacingZ cv / 2) :
    ¬ bboxOverlap (placeBanana cv r c off) (placeBanana cv r' c' off') := by
  have hsX0 : 0 ≤ spacingX cv := by
    unfold spacingX
    exact div_nonneg (by linarith) (by norm_num [bananaCols])
  have hsZ0 : 0 ≤ spacingZ cv := by
    unfold spacingZ
    exact div_nonneg (by linarith) (by norm_num [bananaRows])
  have hsX4 : spacingX cv * 4 = cv.maxX - cv.minX := by
    unfold spacingX bananaCols; push_cast; ring
  have hsZ2 : spacingZ cv * 2 = cv.maxZ - cv.minZ := by
    unfold spacingZ bananaRows; push_cast; ring
  have hcc : (c : ℚ) + 1 ≤ 4 := by
    exact_mod_cast Nat.lt_iff_add_one_le.mp hc
  have hcc' : (c' : ℚ) + 1 ≤ 4 := by
    exact_mod_cast Nat.lt_iff_add_one_le.mp hc'
  have hrr : (r : ℚ) + 1 ≤ 2 := by
    exact_mod_cast Nat.lt_iff_add_one_le.mp hr
  have hrr' : (r' : ℚ) + 1 ≤ 2 := by
    exact_mod_cast Nat.lt_iff_add_one_le.mp hr'
  have hinX := cell_inside hsX0 hsX4 (Nat.cast_nonneg c) hcc hf1
  have hinX' := cell_inside hsX0 hsX4 (Nat.cast_nonneg c') hcc' hf3
  have hinZ := cell_inside hsZ0 hsZ2 (Nat.cast_nonneg r) hrr hf2
  have hinZ' := cell_inside hsZ0 hsZ2 (Nat.cast_nonneg r') hrr' hf4
  have hzx : clampShift (cellCenterX cv c + off.minX)
      (cellCenterX cv c + off.maxX) cv.minX cv.maxX = 0 := by
    apply clampShift_eq_zero
    · rw [hs1]; unfold cellCenterX; linarith [hinX.1]
    · unfold cellCenterX; linarith [hinX.2]
  have hzx' : clampShift (cellCenterX cv c' + off'.minX)
      (cellCenterX cv c' + off'.maxX) cv.minX cv.maxX = 0 := by
    apply clampShift_eq_zero
    · rw [hs3]; unfold cellCenterX; linarith [hinX'.1]
    · unfold cellCenterX; linarith [hinX'.2]
  have hzz : clampShift (cellCenterZ cv r + off.minZ)
      (cellCenterZ cv r + off.maxZ) cv.minZ cv.maxZ = 0 := by
    apply clampShift_eq_zero
    · rw [hs2]; unfold cellCenterZ; linarith [hinZ.1]
    · unfold cellCenterZ; linarith [hinZ.2]
  have hzz' : clampShift (cellCenterZ cv r' + off'.minZ)
      (cellCenterZ cv r' + off'.maxZ) cv.minZ cv.maxZ = 0 := by
    apply clampShift_eq_zero
    · rw [hs4]; unfold cellCenterZ; linarith [hinZ'.1]
    · unfold cellCenterZ; linarith [hinZ'.2]
  have hApl : placeBanana cv r c off =
      ⟨cellCenterX cv c + off.minX, cellCenterX cv c + off.maxX,
        cellCenterZ cv r + off.minZ, cellCenterZ cv r + off.maxZ⟩ := by
    simp only [placeBanana, hzx, hzz, add_zero]
  have hBpl : placeBanana cv r' c' off' =
      ⟨cellCenterX cv c' + off'.minX, cellCenterX cv c' + off'.maxX,
        cellCenterZ cv r' + off'.minZ, cellCenterZ cv r' + off'.maxZ⟩ := by
    simp only [placeBanana, hzx', hzz', add_zero]
  intro hov
  rw [hApl, hBpl] at hov
  unfold bboxOverlap at hov
  dsimp only at hov
  obtain ⟨o1, o2, o3, o4⟩ := hov
  rcases Nat.lt_trichotomy c c' with hlt | heq | hgt
  · have hsep := cells_disjoint_1d hsX0
      (show (c : ℚ) + 1 ≤ (c' : ℚ) from by
        exact_mod_cast Nat.lt_iff_add_one_le.mp hlt) hf1 hf3
    rw [hs3] at o2
    unfold cellCenterX at o2
    linarith [hsep]
  · subst heq
    have hrne : r ≠ r' := fun h => hne (by rw [h])
    rcases Nat.lt_trichotomy r r' with hlt | heq | hgt
    · have hsep := cells_disjoint_1d hsZ0
        (show (r : ℚ) + 1 ≤ (r' : ℚ) from by
          exact_mod_cast Nat.lt_iff_add_one_le.mp hlt) hf2 hf4
      rw [hs4] at o4
      unfold cellCenterZ at o4
      linarith [hsep]
    · exact hrne heq
    · have hsep := cells_disjoint_1d hsZ0
        (show (r' : ℚ) + 1 ≤ (r : ℚ) from by
          exact_mod_cast Nat.lt_iff_add_one_le.mp hgt) hf4 hf2
      rw [hs2] at o3
      unfold cellCenterZ at o3
      linarith [hsep]
  · have hsep := cells_disjoint_1d hsX0
      (show (c' : ℚ) + 1 ≤ (c : ℚ) from by
        exact_mod_cast Nat.lt_iff_add_one_le.mp hgt) hf3 hf1
    rw [hs1] at o1
    unfold cellCenterX at o1
    linarith [hsep]

/-- Witness for the amended C2: cavity [0,4]x[0,2], cells (0,0) and
(0,1), centered boxes of half-extent 1/2 (exactly half a 1x1 cell). -/
theorem C2_amended_cellfit_disjoint_witness :
    ¬ bboxOverlap
      (placeBanana ⟨0, 4, 0, 2⟩ 0 0 ⟨-(1/2), 1/2, -(1/2), 1/2⟩)
      (placeBanana ⟨0, 4, 0, 2⟩ 0 1 ⟨-(1/2), 1/2, -(1/2), 1/2⟩) :=
  C2_amended_cellfit_disjoint ⟨0, 4, 0, 2⟩ (by norm_num) (by norm_num)
    0 0 0 1 (by norm_num [bananaRows]) (by norm_num [bananaCols])
    (by norm_num [bananaRows]) (by norm_num [bananaCols]) (by decide)
    ⟨-(1/2), 1/2, -(1/2), 1/2⟩ ⟨-(1/2), 1/2, -(1/2), 1/2⟩
    rfl rfl rfl rfl
    (by norm_num [spacingX, bananaCols]) (by norm_num [spacingZ, bananaRows])
    (by norm_num [spacingX, bananaCols]) (by norm_num [spacingZ, bananaRows])

/-- C3: the scale factor equals the minimum over the three axes of
grid-cell extent over banana extent, with cell extents the internal cavity
size (box size minus 2mm walls on each side in X and Z and the bottom in
Y) divided by 4 columns, 1 layer and 2 rows; consequently the scaled
banana fits a single grid cell on every axis. -/
theorem C3_scale_factor_fits (b s : Vec3)
    (hx : 0 < b.x) (hy : 0 < b.y) (hz : 0 < b.z) :
    scaleFactor b (internalSize s) =
      min (min ((s.x - 2 * (2/100)) / 4 / b.x) ((s.y - 2/100) / 1 / b.y))
        ((s.z - 2 * (2/100)) / 2 / b.z) ∧
    (scaledBananaSize b (internalSize s)).x ≤ cellX (internalSize s) ∧
    (scaledBananaSize b (internalSize s)).y ≤ cellY (internalSize s) ∧
    (scaledBananaSize b (internalSize s)).z ≤ cellZ (internalSize s) := by
  have hl1 : scaleFactor b (internalSize s) ≤ cellX (internalSize s) / b.x :=
    le_trans (min_le_left _ _) (min_le_left _ _)
  have hl2 : scaleFactor b (internalSize s) ≤ cellY (internalSize s) / b.y :=
    le_trans (min_le_left _ _) (min_le_right _ _)
  have hl3 : scaleFactor b (internalSize s) ≤ cellZ (internalSize s) / b.z :=
    min_le_right _ _
  refine ⟨?_, ?_, ?_, ?_⟩
  · unfold scaleFactor cellX cellY cellZ internalSize wallThickness
      bananaCols bananaRows countY
    norm_num
  · have h2 := mul_le_mul_of_nonneg_left hl1 hx.le
    have h3 : b.x * (cellX (internalSize s) / b.x) = cellX (internalSize s) := by
      field_simp
    show b.x * scaleFactor b (internalSize s) ≤ cellX (internalSize s)
    linarith
  · have h2 := mul_le_mul_of_nonneg_left hl2 hy.le
    have h3 : b.y * (cellY (internalSize s) / b.y) = cellY (internalSize s) := by
      field_simp
    show b.y * scaleFactor b (internalSize s) ≤ cellY (internalSize s)
    linarith
  · have h2 := mul_le_mul_of_nonneg_left hl3 hz.le
    have h3 : b.z * (cellZ (internalSize s) / b.z) = cellZ (internalSize s) := by
      field_simp
    show b.z * scaleFactor b (internalSize s) ≤ cellZ (internalSize s)
    linarith

/-- Witness for C3 at banana size (1,1,1) and box size (4,2,3). -/
theorem C3_scale_factor_fits_witness :
    scaleFactor ⟨1, 1, 1⟩ (internalSize ⟨4, 2, 3⟩) =
      min (min (((4:ℚ) - 2 * (2/100)) / 4 / 1) (((2:ℚ) - 2/100) / 1 / 1))
        (((3:ℚ) - 2 * (2/100)) / 2 / 1) ∧
    (scaledBananaSize ⟨1, 1, 1⟩ (internalSize ⟨4, 2, 3⟩)).x ≤ cellX (internalSize ⟨4, 2, 3⟩) ∧
    (scaledBananaSize ⟨1, 1, 1⟩ (internalSize ⟨4, 2, 3⟩)).y ≤ cellY (internalSize ⟨4, 2, 3⟩) ∧
    (scaledBananaSize ⟨1, 1, 1⟩ (internalSize ⟨4, 2, 3⟩)).z ≤ cellZ (internalSize ⟨4, 2, 3⟩) :=
  C3_scale_factor_fits ⟨1, 1, 1⟩ ⟨4, 2, 3⟩ one_pos one_pos one_pos

/-! ### Procedural banana fallback, from src/boxGeometry.js (createBanana)
and src/app.js (createBananas catch branch, lines 1021-1062) -/

/-- The deterministic geometry built by `createBanana(radius, length,
material)` (src/boxGeometry.js lines 239-269): a group holding a cylinder
body (top radius `radius`, bottom radius `radius * 0.7`, given length,
rotated onto the X axis and centered at x = length/2), a stem sphere of
radius `radius * 0.5` at x = length, a flower sphere of radius
`radius * 0.8` at the origin, and a slight curve rotation of 0.3 radians
about Y on the group. -/
structure ProcBanana where
  bodyRadiusTop : ℚ
  bodyRadiusBottom : ℚ
  bodyLength : ℚ
  bodyPosX : ℚ
  stemRadius : ℚ
  stemPosX : ℚ
  flowerRadius : ℚ
  groupRotY : ℚ
  deriving DecidableEq

/-- `createBanana(radius, length, material)` (src/boxGeometry.js lines
239-269), with the material kept abstract. -/
def createBanana (radius length : ℚ) : ProcBanana :=
  { bodyRadiusTop := radius
    bodyRadiusBottom := radius * (7/10)
    bodyLength := length
    bodyPosX := length / 2
    stemRadius := radius * (1/2)
    stemPosX := length
    flowerRadius := radius * (8/10)
    groupRotY := 3/10 }

/-- One procedural banana placed in the box by the fallback branch (its
random rotations are not modelled: the claims do not constrain them). -/
structure PlacedProcBanana where
  banana : ProcBanana
  x : ℚ
  y : ℚ
  z : ℚ
  deriving DecidableEq

/-- The fallback loop of `createBananas` (src/app.js lines 1030-1061):
4 procedural bananas scaled from the base radius 0.08 / length 0.6 so the
length becomes `min(width, depth) * 0.4`, placed on a 2-by-2 grid
(`row = floor(i / 2)`, `col = i % 2`) with spacing 0.3 times the box
width and depth, at height 0.4 times the box height. -/
def createBananasFallback (width height depth : ℚ) : List PlacedProcBanana :=
  let bananaRadius : ℚ := 8/100
  let bananaLength : ℚ := 6/10
  let maxLength := min width depth * (4/10)
  let sf := maxLength / bananaLength
  let scaledRadius := bananaRadius * sf
  let scaledLength := bananaLength * sf
  (List.range 4).map fun i =>
    { banana := createBanana scaledRadius scaledLength
      x := ((i % 2 : ℕ) - (1/2 : ℚ)) * (width * (3/10))
      y := height * (4/10)
      z := ((i / 2 : ℕ) - (1/2 : ℚ)) * (depth * (3/10)) }

/-- Whether the external GLB model load succeeds (the banana bounding-box
offsets of each clone, determined by the random rotations, are a
parameter) or fails. -/
inductive GLBOutcome where
  | loaded
  | failed
  deriving DecidableEq

/-- The result of `createBananas`: either clones of the GLB model placed
by the grid-packing loop, or the procedural fallback bananas. -/
inductive BananaScene where
  | fromModel (placed : List BBox2)
  | procedural (placed : List PlacedProcBanana)
  deriving DecidableEq

/-- The grid-packing loop (lines 953-1020): rows outer, columns inner,
one placed bounding box per (row, column) pair. -/
def gridPlacements (cv : Cavity) (offs : ℕ → BBOffsets) : List BBox2 :=
  (List.range bananaRows).flatMap fun r =>
    (List.range bananaCols).map fun c =>
      placeBanana cv r c (offs (r * bananaCols + c))

/-- `createBananas` (src/app.js lines 831-1063): the try branch places
scaled GLB clones on the grid; the catch branch (entered when the model
load rejects) logs the error and builds the procedural fallback. The
function is total — a load failure never escapes as an error. Returned
alongside the scene is the list of console error messages. -/
def createBananas (dims : Vec3) (cv : Cavity) (offs : ℕ → BBOffsets) :
    GLBOutcome → BananaScene × List String
  | .loaded => (.fromModel (gridPlacements cv offs), [])
  | .failed => (.procedural (createBananasFallback dims.x dims.y dims.z),
      ["Error creating bananas:"])

/-- C7: when the GLB model load fails, `createBananas` logs the error and
resolves to exactly 4 procedural bananas built by `createBanana`, scaled
so the banana length is 40 percent of the smaller of the box's width and
depth, placed in a 2-by-2 arrangement. -/
theorem C7_fallback_bananas (dims : Vec3) (cv : Cavity) (offs : ℕ → BBOffsets) :
    createBananas dims cv offs .failed =
      (.procedural (createBananasFallback dims.x dims.y dims.z),
        ["Error creating bananas:"]) ∧
    createBananasFallback dims.x dims.y dims.z =
      [{ banana := createBanana ((8/100) * (min dims.x dims.z * (4/10) / (6/10)))
           ((4/10) * min dims.x dims.z)
         x := -((3/20) * dims.x), y := (4/10) * dims.y, z := -((3/20) * dims.z) },
       { banana := createBanana ((8/100) * (min dims.x dims.z * (4/10) / (6/10)))
           ((4/10) * min dims.x dims.z)
         x := (3/20) * dims.x, y := (4/10) * dims.y, z := -((3/20) * dims.z) },
       { banana := createBanana ((8/100) * (min dims.x dims.z * (4/10) / (6/10)))
           ((4/10) * min dims.x dims.z)
         x := -((3/20) * dims.x), y := (4/10) * dims.y, z := (3/20) * dims.z },
       { banana := createBanana ((8/100) * (min dims.x dims.z * (4/10) / (6/10)))
           ((4/10) * min dims.x dims.z)
         x := (3/20) * dims.x, y := (4/10) * dims.y, z := (3/20) * dims.z }] ∧
    (createBananasFallback dims.x dims.y dims.z).length = 4 := by
  refine ⟨rfl, ?_, rfl⟩
  unfold createBananasFallback createBanana
  simp only [List.range_succ, List.range_zero, List.map_nil, List.map_append,
    List.map_cons, List.nil_append, List.cons_append]
  norm_num
  refine ⟨⟨?_, ?_, ?_⟩, ?_, ?_, ?_⟩ <;> ring

/-! ### Texture loading, from src/textureLoader.js (src/unnamed/part_000) -/

/-- The keys of the `brandMap` object (lines 12-18), equal to the brands
with per-face cropped texture sets. -/
def knownBrands : List String :=
  ["FRUTANA", "FRUTANOVA", "SINDIBAD", "FRUTANA JOY", "FRUTALUXE"]

/-- `const brandName = brandMap[brand] || "FRUTANA"` (lines 12-20): the
`brandMap` object maps each of the five known brands to itself, and the
`|| "FRUTANA"` default maps every other brand to FRUTANA. -/
def brandNameOf (brand : String) : String :=
  if brand = "FRUTANA" then "FRUTANA"
  else if brand = "FRUTANOVA" then "FRUTANOVA"
  else if brand = "SINDIBAD" then "SINDIBAD"
  else if brand = "FRUTANA JOY" then "FRUTANA JOY"
  else if brand = "FRUTALUXE" then "FRUTALUXE"
  else "FRUTANA"

/-- `getBrandFileName(brand, boxType)` (lines 11-31). -/
def getBrandFileName (brand boxType : String) : String :=
  let brandName := brandNameOf brand
  if boxType = "22XU" then
    if brandName = "SINDIBAD" then "caja 22xu - SINDIBAD OUT FINAL CORREGIDA"
    else "caja 22xu - " ++ brandName ++ " OUT"
  else if boxType = "208" then
    "medida de caja 208 - " ++ brandName ++ " OUT"
  else
    "caja 22xu - " ++ brandName ++ " OUT"

/-- The canvas built by `createFallbackTexture` (lines 36-63): a
1024x1024 canvas filled with the brand's color, with the brand name drawn
at the canvas center with centered alignment and middle baseline. -/
structure FallbackTexture where
  width : ℕ
  height : ℕ
  fillStyle : String
  text : String
  textX : ℚ
  textY : ℚ
  textAlign : String
  textBaseline : String
  deriving DecidableEq

/-- The `colors` object lookup (lines 42-48): the per-brand solid color. -/
def brandColorLookup (brand : String) : Option String :=
  if brand = "FRUTANA" then some "#e74c3c"
  else if brand = "FRUTANOVA" then some "#3498db"
  else if brand = "SINDIBAD" then some "#f39c12"
  else if brand = "FRUTANA JOY" then some "#9b59b6"
  else if brand = "FRUTALUXE" then some "#1abc9c"
  else none

/-- `createFallbackTexture(brand)` (lines 36-63):
`ctx.fillStyle = colors[brand] || colors.FRUTANA`, then
`ctx.fillText(brand, canvas.width / 2, canvas.height / 2)` with
`textAlign = 'center'` and `textBaseline = 'middle'`. -/
def createFallbackTexture (brand : String) : FallbackTexture :=
  { width := 1024
    height := 1024
    fillStyle := (brandColorLookup brand).getD "#e74c3c"
    text := brand
    textX := 512
    textY := 512
    textAlign := "center"
    textBaseline := "middle" }

/-- A texture object: either a PNG texture loaded from a path (its
wrapping and rotation settings are shared constants and not modelled), or
a generated canvas fallback. -/
inductive Texture where
  | png : String → Texture
  | canvas : FallbackTexture → Texture
  deriving DecidableEq

/-- Lookup in the `textureCache` object (an association list keyed by
string). -/
def cacheLookup : List (String × Texture) → String → Option Texture
  | [], _ => none
  | (k, t) :: rest, key => if k = key then some t else cacheLookup rest key

/-- The outcome of the external PNG load request: the onLoad callback
fires, or the onError callback fires. -/
inductive LoadOutcome where
  | ok
  | err
  deriving DecidableEq

/-- The observable result of one `loadTexture` call: the cache afterward,
the texture the promise resolves with, whether a loader request was
started, and the console warnings emitted. -/
structure LoadTextureResult where
  cache : List (String × Texture)
  texture : Texture
  startedLoad : Bool
  warnings : List String
  deriving DecidableEq

/-- The PNG path built by `loadTexture` (lines 78-80). -/
def texturePngPath (brand boxType : String) : String :=
  let fileName := getBrandFileName brand boxType
  let boxTypePath := if boxType = "22XU" then "22xu" else boxType
  "assets/textures/png/" ++ boxTypePath ++ "/" ++ fileName ++ " Mesa de trabajo 1.png"

/-- `loadTexture(brand, boxType)` (lines 70-113) as a state transformer
over the texture cache, taking the load outcome as a parameter: a cache
hit resolves immediately; otherwise the loader runs and on success the
PNG texture — or on failure the fallback texture, after a console warning
— is cached under the key `brand + "_" + boxType` and resolved. The
promise executor only ever calls `resolve`, never `reject`: totality of
this function embeds that. -/
def loadTexture (cache : List (String × Texture)) (brand boxType : String)
    (outcome : LoadOutcome) : LoadTextureResult :=
  let cacheKey := brand ++ "_" ++ boxType
  match cacheLookup cache cacheKey with
  | some t => ⟨cache, t, false, []⟩
  | none =>
    match outcome with
    | .ok => ⟨(cacheKey, Texture.png (texturePngPath brand boxType)) :: cache,
        Texture.png (texturePngPath brand boxType), true, []⟩
    | .err => ⟨(cacheKey, Texture.canvas (createFallbackTexture brand)) :: cache,
        Texture.canvas (createFallbackTexture brand), true,
        ["Failed to load texture: " ++ texturePngPath brand boxType]⟩

/-- A loaded cropped texture set, identified by the texture objects it
holds (abstracted as numeric object identities). -/
structure TexSet where
  texIds : List ℕ
  deriving DecidableEq

/-- The shared texture-cache state for the cropped-set loaders: the cache
(an association list), the identities of disposed texture objects, and
the next fresh object identity. -/
structure TexCacheState where
  setCache : List (String × TexSet)
  disposed : List ℕ
  nextId : ℕ
  deriving DecidableEq

/-- Association-list lookup for cached cropped sets. -/
def setLookup : List (String × TexSet) → String → Option TexSet
  | [], _ => none
  | (k, s) :: rest, key => if k = key then some s else setLookup rest key

/-- `delete textureCache[cacheKey]` for cropped sets. -/
def setErase : List (String × TexSet) → String → List (String × TexSet)
  | [], _ => []
  | (k, s) :: rest, key =>
    if k = key then setErase rest key else (k, s) :: setErase rest key

/-- The number of entries in each loader's `files` table (14 textures per
cropped set). -/
def croppedSetSize : ℕ := 14

/-- A freshly loaded set of texture objects. -/
def freshSet (st : TexCacheState) : TexSet :=
  ⟨List.range' st.nextId croppedSetSize⟩

/-- The observable result of one cropped-set loader call. -/
structure CroppedLoadResult where
  state : TexCacheState
  set : TexSet
  startedLoad : Bool
  deriving DecidableEq

/-- The common shape of `loadFrutaluxeCroppedTextures22XU` (lines
128-223), `loadFrutanaJoyCroppedTextures22XU`,
`loadFrutanovaCroppedTextures22XU` and `loadSindibadCroppedTextures22XU`:
return the cached set when present, else load all textures, cache the
set, and return it. -/
def loadCroppedSetCached (cacheKey : String) (st : TexCacheState) :
    CroppedLoadResult :=
  match setLookup st.setCache cacheKey with
  | some s => ⟨st, s, false⟩
  | none =>
    let s := freshSet st
    ⟨⟨(cacheKey, s) :: st.setCache, st.disposed, st.nextId + croppedSetSize⟩,
      s, true⟩

/-- `loadFrutaluxeCroppedTextures22XU()` (lines 128-223). -/
def loadFrutaluxeCroppedTextures22XU (st : TexCacheState) : CroppedLoadResult :=
  loadCroppedSetCached "FRUTALUXE_22XU_CROPPED_SET" st

/-- `loadFrutanaJoyCroppedTextures22XU()` (lines 229-324). -/
def loadFrutanaJoyCroppedTextures22XU (st : TexCacheState) : CroppedLoadResult :=
  loadCroppedSetCached "FRUTANA_JOY_22XU_CROPPED_SET" st

/-- `loadFrutanovaCroppedTextures22XU()` (lines 442-536). -/
def loadFrutanovaCroppedTextures22XU (st : TexCacheState) : CroppedLoadResult :=
  loadCroppedSetCached "FRUTANOVA_22XU_CROPPED_SET" st

/-- `loadSindibadCroppedTextures22XU()` (lines 542-636). -/
def loadSindibadCroppedTextures22XU (st : TexCacheState) : CroppedLoadResult :=
  loadCroppedSetCached "SINDIBAD_22XU_CROPPED_SET" st

/-- `loadFrutanaCroppedTextures22XU()` (lines 331-436): unlike the other
four loaders, a cached set is disposed (every texture in it) and its
cache entry deleted, then the set is always reloaded and re-cached. -/
def loadFrutanaCroppedTextures22XU (st : TexCacheState) : CroppedLoadResult :=
  let cacheKey := "FRUTANA_22XU_CROPPED_SET"
  let st1 := match setLookup st.setCache cacheKey with
    | some old => TexCacheState.mk (setErase st.setCache cacheKey)
        (old.texIds ++ st.disposed) st.nextId
    | none => st
  let s := freshSet st1
  ⟨⟨(cacheKey, s) :: st1.setCache, st1.disposed, st1.nextId + croppedSetSize⟩,
    s, true⟩

/-- Every brand name resolves to one of the five known brand strings. -/
theorem brandNameOf_mem (brand : String) :
    brandNameOf brand = "FRUTANA" ∨ brandNameOf brand = "FRUTANOVA" ∨
    brandNameOf brand = "SINDIBAD" ∨ brandNameOf brand = "FRUTANA JOY" ∨
    brandNameOf brand = "FRUTALUXE" := by
  unfold brandNameOf
  split_ifs <;> simp

/-- An unknown brand resolves to FRUTANA. -/
theorem brandNameOf_unknown {brand : String} (h : brand ∉ knownBrands) :
    brandNameOf brand = "FRUTANA" := by
  simp only [knownBrands, List.mem_cons, List.not_mem_nil, or_false, not_or] at h
  obtain ⟨h1, h2, h3, h4, h5⟩ := h
  unfold brandNameOf
  rw [if_neg h1, if_neg h2, if_neg h3, if_neg h4, if_neg h5]

/-- The resolved brand name is SINDIBAD exactly for the SINDIBAD brand. -/
theorem brandNameOf_eq_sindibad (brand : String) :
    brandNameOf brand = "SINDIBAD" ↔ brand = "SINDIBAD" := by
  unfold brandNameOf
  split_ifs with h1 h2 h3 h4 h5
  · subst h1; decide
  · subst h2; decide
  · subst h3; decide
  · subst h4; decide
  · subst h5; decide
  · exact iff_of_false (by decide) h3

/-- C10: `getBrandFileName` is total over all strings: it always returns
a nonempty filename; an unknown brand is treated as FRUTANA; a box type
other than 22XU and 208 falls through to the 22xu naming template; and
for box type 22XU the SINDIBAD brand alone receives the special CORREGIDA
filename. -/
theorem C10_getBrandFileName_total (brand boxType : String) :
    getBrandFileName brand boxType ≠ "" ∧
    (brand ∉ knownBrands →
      getBrandFileName brand boxType = getBrandFileName "FRUTANA" boxType) ∧
    (boxType ≠ "22XU" → boxType ≠ "208" →
      getBrandFileName brand boxType = "caja 22xu - " ++ brandNameOf brand ++ " OUT") ∧
    (getBrandFileName brand "22XU" = "caja 22xu - SINDIBAD OUT FINAL CORREGIDA" ↔
      brand = "SINDIBAD") := by
  refine ⟨?_, ?_, ?_, ?_⟩
  · simp only [getBrandFileName]
    rcases brandNameOf_mem brand with h | h | h | h | h <;> rw [h] <;>
      split_ifs <;> decide
  · intro hunk
    have hbn := brandNameOf_unknown hunk
    have hF : brandNameOf "FRUTANA" = "FRUTANA" := by decide
    simp only [getBrandFileName, hbn, hF]
  · intro ht1 ht2
    simp only [getBrandFileName]
    rw [if_neg ht1, if_neg ht2]
  · constructor
    · intro he
      by_contra hne
      have hbn : brandNameOf brand ≠ "SINDIBAD" :=
        fun h => hne ((brandNameOf_eq_sindibad brand).mp h)
      simp only [getBrandFileName, if_pos] at he
      rw [if_neg hbn] at he
      rcases brandNameOf_mem brand with h | h | h | h | h <;> rw [h] at he
      · exact absurd he (by decide)
      · exact absurd he (by decide)
      · exact absurd h hbn
      · exact absurd he (by decide)
      · exact absurd he (by decide)
    · intro hb
      subst hb
      decide

/-- Witness for C10 at an unknown brand and an unknown box type. -/
theorem C10_getBrandFileName_total_witness :
    ("ACME" ∉ knownBrands) ∧ ("999" ≠ "22XU") ∧ ("999" ≠ "208") ∧
    getBrandFileName "ACME" "999" ≠ "" ∧
    getBrandFileName "ACME" "999" = getBrandFileName "FRUTANA" "999" ∧
    getBrandFileName "ACME" "999" = "caja 22xu - " ++ brandNameOf "ACME" ++ " OUT" ∧
    (getBrandFileName "ACME" "22XU" = "caja 22xu - SINDIBAD OUT FINAL CORREGIDA" ↔
      "ACME" = "SINDIBAD") :=
  ⟨by decide, by decide, by decide,
    (C10_getBrandFileName_total "ACME" "999").1,
    (C10_getBrandFileName_total "ACME" "999").2.1 (by decide),
    (C10_getBrandFileName_total "ACME" "999").2.2.1 (by decide) (by decide),
    (C10_getBrandFileName_total "ACME" "22XU").2.2.2⟩

/-- An unknown brand gets FRUTANA's color. -/
theorem brandColorLookup_unknown {brand : String} (h : brand ∉ knownBrands) :
    (brandColorLookup brand).getD "#e74c3c" = "#e74c3c" := by
  simp only [knownBrands, List.mem_cons, List.not_mem_nil, or_false, not_or] at h
  obtain ⟨h1, h2, h3, h4, h5⟩ := h
  unfold brandColorLookup
  rw [if_neg h1, if_neg h2, if_neg h3, if_neg h4, if_neg h5]
  rfl

/-- C6: on a cache miss with a failing PNG load, `loadTexture` still
resolves (never rejects): it warns on the console and resolves with the
generated placeholder — a canvas filled with the brand color (FRUTANA's
color for unknown brands) and the brand name drawn as a centered label —
and caches that fallback under the same `brand_boxType` key that a
successful load would use. -/
theorem C6_loadTexture_fallback (brand boxType : String)
    (cache : List (String × Texture))
    (hmiss : cacheLookup cache (brand ++ "_" ++ boxType) = none) :
    (loadTexture cache brand boxType .err).texture =
      Texture.canvas (createFallbackTexture brand) ∧
    (loadTexture cache brand boxType .err).warnings =
      ["Failed to load texture: " ++ texturePngPath brand boxType] ∧
    cacheLookup (loadTexture cache brand boxType .err).cache
      (brand ++ "_" ++ boxType) = some (loadTexture cache brand boxType .err).texture ∧
    cacheLookup (loadTexture cache brand boxType .ok).cache
      (brand ++ "_" ++ boxType) = some (loadTexture cache brand boxType .ok).texture ∧
    (createFallbackTexture brand).fillStyle = (brandColorLookup brand).getD "#e74c3c" ∧
    (brand ∉ knownBrands → (createFallbackTexture brand).fillStyle = "#e74c3c") ∧
    (createFallbackTexture brand).text = brand ∧
    (createFallbackTexture brand).width = 1024 ∧
    (createFallbackTexture brand).height = 1024 ∧
    (createFallbackTexture brand).textX = 512 ∧
    (createFallbackTexture brand).textY = 512 ∧
    (createFallbackTexture brand).textAlign = "center" ∧
    (createFallbackTexture brand).textBaseline = "middle" := by
  refine ⟨?_, ?_, ?_, ?_, rfl, ?_, rfl, rfl, rfl, rfl, rfl, rfl, rfl⟩
  · simp only [loadTexture, hmiss]
  · simp only [loadTexture, hmiss]
  · simp only [loadTexture, hmiss, cacheLookup, if_pos]
  · simp only [loadTexture, hmiss, cacheLookup, if_pos]
  · exact fun h => brandColorLookup_unknown h

/-- Witness for C6 at an unknown brand with an empty cache. -/
theorem C6_loadTexture_fallback_witness :
    cacheLookup [] ("ACME" ++ "_" ++ "999") = none ∧
    ("ACME" ∉ knownBrands) ∧
    ((loadTexture [] "ACME" "999" .err).texture =
      Texture.canvas (createFallbackTexture "ACME") ∧
    (loadTexture [] "ACME" "999" .err).warnings =
      ["Failed to load texture: " ++ texturePngPath "ACME" "999"] ∧
    cacheLookup (loadTexture [] "ACME" "999" .err).cache
      ("ACME" ++ "_" ++ "999") = some (loadTexture [] "ACME" "999" .err).texture ∧
    cacheLookup (loadTexture [] "ACME" "999" .ok).cache
      ("ACME" ++ "_" ++ "999") = some (loadTexture [] "ACME" "999" .ok).texture ∧
    (createFallbackTexture "ACME").fillStyle = (brandColorLookup "ACME").getD "#e74c3c" ∧
    ("ACME" ∉ knownBrands → (createFallbackTexture "ACME").fillStyle = "#e74c3c") ∧
    (createFallbackTexture "ACME").text = "ACME" ∧
    (createFallbackTexture "ACME").width = 1024 ∧
    (createFallbackTexture "ACME").height = 1024 ∧
    (createFallbackTexture "ACME").textX = 512 ∧
    (createFallbackTexture "ACME").textY = 512 ∧
    (createFallbackTexture "ACME").textAlign = "center" ∧
    (createFallbackTexture "ACME").textBaseline = "middle") :=
  ⟨rfl, by decide, C6_loadTexture_fallback "ACME" "999" [] rfl⟩

/-- After any `loadTexture` call the resolved texture sits in the cache
under the call's key. -/
theorem loadTexture_caches (cache : List (String × Texture))
    (brand boxType : String) (outcome : LoadOutcome) :
    cacheLookup (loadTexture cache brand boxType outcome).cache
      (brand ++ "_" ++ boxType) =
      some (loadTexture cache brand boxType outcome).texture := by
  unfold loadTexture
  cases hl : cacheLookup cache (brand ++ "_" ++ boxType) with
  | some t => simp [hl]
  | none => cases outcome <;> simp [hl, cacheLookup]

/-- A cache hit returns the cached texture at once: no load, no cache
change, no warning. -/
theorem loadTexture_hit {cache : List (String × Texture)} {brand boxType : String}
    {t : Texture} (h : cacheLookup cache (brand ++ "_" ++ boxType) = some t)
    (outcome : LoadOutcome) :
    loadTexture cache brand boxType outcome = ⟨cache, t, false, []⟩ := by
  simp only [loadTexture, h]

/-- Erasing a key removes it from the association list. -/
theorem setLookup_setErase (l : List (String × TexSet)) (key : String) :
    setLookup (setErase l key) key = none := by
  induction l with
  | nil => rfl
  | cons p rest ih =>
    obtain ⟨k, s⟩ := p
    unfold setErase
    by_cases hk : k = key
    · rw [if_pos hk]; exact ih
    · rw [if_neg hk]; unfold setLookup; rw [if_neg hk]; exact ih

/-- C9: `loadTexture` is idempotent per key — a second call with the same
brand and box type returns the cached texture of the first call, starts
no new load, and leaves the cache unchanged, whether the first call
succeeded or fell back. By contrast `loadFrutanaCroppedTextures22XU`
always starts a load, and when a cached set exists it disposes every
texture of that set and deletes its cache entry, while
`loadFrutaluxeCroppedTextures22XU` (like the other three brand set
loaders) returns a cached set untouched without loading. -/
theorem C9_texture_caching (cache : List (String × Texture))
    (brand boxType : String) (oc1 oc2 : LoadOutcome) (st : TexCacheState) :
    (loadTexture (loadTexture cache brand boxType oc1).cache brand boxType oc2).texture =
      (loadTexture cache brand boxType oc1).texture ∧
    (loadTexture (loadTexture cache brand boxType oc1).cache brand boxType oc2).startedLoad =
      false ∧
    (loadTexture (loadTexture cache brand boxType oc1).cache brand boxType oc2).cache =
      (loadTexture cache brand boxType oc1).cache ∧
    (loadFrutanaCroppedTextures22XU st).startedLoad = true ∧
    (∀ old, setLookup st.setCache "FRUTANA_22XU_CROPPED_SET" = some old →
      (∀ i ∈ old.texIds, i ∈ (loadFrutanaCroppedTextures22XU st).state.disposed) ∧
      setLookup (setErase st.setCache "FRUTANA_22XU_CROPPED_SET")
        "FRUTANA_22XU_CROPPED_SET" = none) ∧
    (∀ s, setLookup st.setCache "FRUTALUXE_22XU_CROPPED_SET" = some s →
      loadFrutaluxeCroppedTextures22XU st = ⟨st, s, false⟩) ∧
    (∀ s, setLookup st.setCache "FRUTANA_JOY_22XU_CROPPED_SET" = some s →
      loadFrutanaJoyCroppedTextures22XU st = ⟨st, s, false⟩) ∧
    (∀ s, setLookup st.setCache "FRUTANOVA_22XU_CROPPED_SET" = some s →
      loadFrutanovaCroppedTextures22XU st = ⟨st, s, false⟩) ∧
    (∀ s, setLookup st.setCache "SINDIBAD_22XU_CROPPED_SET" = some s →
      loadSindibadCroppedTextures22XU st = ⟨st, s, false⟩) := by
  have hcached := loadTexture_caches cache brand boxType oc1
  have h2 := loadTexture_hit hcached oc2
  refine ⟨?_, ?_, ?_, ?_, ?_, ?_, ?_, ?_, ?_⟩
  · rw [h2]
  · rw [h2]
  · rw [h2]
  · rfl
  · intro old hold
    constructor
    · intro i hi
      simp only [loadFrutanaCroppedTextures22XU, hold]
      exact List.mem_append_left _ hi
    · exact setLookup_setErase st.setCache "FRUTANA_22XU_CROPPED_SET"
  · intro s hs
    simp only [loadFrutaluxeCroppedTextures22XU, loadCroppedSetCached, hs]
  · intro s hs
    simp only [loadFrutanaJoyCroppedTextures22XU, loadCroppedSetCached, hs]
  · intro s hs
    simp only [loadFrutanovaCroppedTextures22XU, loadCroppedSetCached, hs]
  · intro s hs
    simp only [loadSindibadCroppedTextures22XU, loadCroppedSetCached, hs]

/-- Witness for C9: a first fallback load followed by a repeat call, and
a cropped-set cache holding a FRUTANA set (texture identity 5) plus
cached FRUTALUXE, FRUTANA JOY, FRUTANOVA and SINDIBAD sets (texture
identities 7, 8, 9 and 11). -/
theorem C9_texture_caching_witness :
    (loadTexture (loadTexture [] "ACME" "999" .err).cache "ACME" "999" .ok).texture =
      (loadTexture [] "ACME" "999" .err).texture ∧
    (loadTexture (loadTexture [] "ACME" "999" .err).cache "ACME" "999" .ok).startedLoad =
      false ∧
    (5 ∈ (loadFrutanaCroppedTextures22XU
      ⟨[("FRUTANA_22XU_CROPPED_SET", ⟨[5]⟩),
        ("FRUTALUXE_22XU_CROPPED_SET", ⟨[7]⟩),
        ("FRUTANA_JOY_22XU_CROPPED_SET", ⟨[8]⟩),
        ("FRUTANOVA_22XU_CROPPED_SET", ⟨[9]⟩),
        ("SINDIBAD_22XU_CROPPED_SET", ⟨[11]⟩)], [], 20⟩).state.disposed) ∧
    loadFrutaluxeCroppedTextures22XU
      ⟨[("FRUTANA_22XU_CROPPED_SET", ⟨[5]⟩),
        ("FRUTALUXE_22XU_CROPPED_SET", ⟨[7]⟩),
        ("FRUTANA_JOY_22XU_CROPPED_SET", ⟨[8]⟩),
        ("FRUTANOVA_22XU_CROPPED_SET", ⟨[9]⟩),
        ("SINDIBAD_22XU_CROPPED_SET", ⟨[11]⟩)], [], 20⟩ =
      ⟨⟨[("FRUTANA_22XU_CROPPED_SET", ⟨[5]⟩),
        ("FRUTALUXE_22XU_CROPPED_SET", ⟨[7]⟩),
        ("FRUTANA_JOY_22XU_CROPPED_SET", ⟨[8]⟩),
        ("FRUTANOVA_22XU_CROPPED_SET", ⟨[9]⟩),
        ("SINDIBAD_22XU_CROPPED_SET", ⟨[11]⟩)], [], 20⟩, ⟨[7]⟩, false⟩ ∧
    loadFrutanaJoyCroppedTextures22XU
      ⟨[("FRUTANA_22XU_CROPPED_SET", ⟨[5]⟩),
        ("FRUTALUXE_22XU_CROPPED_SET", ⟨[7]⟩),
        ("FRUTANA_JOY_22XU_CROPPED_SET", ⟨[8]⟩),
        ("FRUTANOVA_22XU_CROPPED_SET", ⟨[9]⟩),
        ("SINDIBAD_22XU_CROPPED_SET", ⟨[11]⟩)], [], 20⟩ =
      ⟨⟨[("FRUTANA_22XU_CROPPED_SET", ⟨[5]⟩),
        ("FRUTALUXE_22XU_CROPPED_SET", ⟨[7]⟩),
        ("FRUTANA_JOY_22XU_CROPPED_SET", ⟨[8]⟩),
        ("FRUTANOVA_22XU_CROPPED_SET", ⟨[9]⟩),
        ("SINDIBAD_22XU_CROPPED_SET", ⟨[11]⟩)], [], 20⟩, ⟨[8]⟩, false⟩ ∧
    loadFrutanovaCroppedTextures22XU
      ⟨[("FRUTANA_22XU_CROPPED_SET", ⟨[5]⟩),
        ("FRUTALUXE_22XU_CROPPED_SET", ⟨[7]⟩),
        ("FRUTANA_JOY_22XU_CROPPED_SET", ⟨[8]⟩),
        ("FRUTANOVA_22XU_CROPPED_SET", ⟨[9]⟩),
        ("SINDIBAD_22XU_CROPPED_SET", ⟨[11]⟩)], [], 20⟩ =
      ⟨⟨[("FRUTANA_22XU_CROPPED_SET", ⟨[5]⟩),
        ("FRUTALUXE_22XU_CROPPED_SET", ⟨[7]⟩),
        ("FRUTANA_JOY_22XU_CROPPED_SET", ⟨[8]⟩),
        ("FRUTANOVA_22XU_CROPPED_SET", ⟨[9]⟩),
        ("SINDIBAD_22XU_CROPPED_SET", ⟨[11]⟩)], [], 20⟩, ⟨[9]⟩, false⟩ ∧
    loadSindibadCroppedTextures22XU
      ⟨[("FRUTANA_22XU_CROPPED_SET", ⟨[5]⟩),
        ("FRUTALUXE_22XU_CROPPED_SET", ⟨[7]⟩),
        ("FRUTANA_JOY_22XU_CROPPED_SET", ⟨[8]⟩),
        ("FRUTANOVA_22XU_CROPPED_SET", ⟨[9]⟩),
        ("SINDIBAD_22XU_CROPPED_SET", ⟨[11]⟩)], [], 20⟩ =
      ⟨⟨[("FRUTANA_22XU_CROPPED_SET", ⟨[5]⟩),
        ("FRUTALUXE_22XU_CROPPED_SET", ⟨[7]⟩),
        ("FRUTANA_JOY_22XU_CROPPED_SET", ⟨[8]⟩),
        ("FRUTANOVA_22XU_CROPPED_SET", ⟨[9]⟩),
        ("SINDIBAD_22XU_CROPPED_SET", ⟨[11]⟩)], [], 20⟩, ⟨[11]⟩, false⟩ :=
  let T := C9_texture_caching [] "ACME" "999" .err .ok
    ⟨[("FRUTANA_22XU_CROPPED_SET", ⟨[5]⟩),
      ("FRUTALUXE_22XU_CROPPED_SET", ⟨[7]⟩),
      ("FRUTANA_JOY_22XU_CROPPED_SET", ⟨[8]⟩),
      ("FRUTANOVA_22XU_CROPPED_SET", ⟨[9]⟩),
      ("SINDIBAD_22XU_CROPPED_SET", ⟨[11]⟩)], [], 20⟩
  ⟨T.1, T.2.1,
   (T.2.2.2.2.1 ⟨[5]⟩ rfl).1 5 (by decide),
   T.2.2.2.2.2.1 ⟨[7]⟩ rfl,
   T.2.2.2.2.2.2.1 ⟨[8]⟩ rfl,
   T.2.2.2.2.2.2.2.1 ⟨[9]⟩ rfl,
   T.2.2.2.2.2.2.2.2 ⟨[11]⟩ rfl⟩

/-! ### Scene disposal on rebuild, from src/app.js (createBox, lines
129-144) -/

/-- The material slot of a scene object: no material, a single material,
or an array of materials. Each material carries its disposed flag. -/
inductive MatSlot where
  | noMat : MatSlot
  | single : Bool → MatSlot
  | array : List Bool → MatSlot
  deriving DecidableEq

/-- A node of the three.js object tree reachable by `traverse`: an
optional geometry with its disposed flag, a material slot, and the child
objects. `boxGroup.traverse(...)` visits the group itself and every
descendant. -/
inductive SceneNode where
  | mk : Option Bool → MatSlot → List SceneNode → SceneNode

/-- `child.geometry` of a scene node. -/
def SceneNode.geometry : SceneNode → Option Bool
  | .mk g _ _ => g

/-- `child.material` of a scene node. -/
def SceneNode.material : SceneNode → MatSlot
  | .mk _ m _ => m

/-- The children of a scene node. -/
def SceneNode.children : SceneNode → List SceneNode
  | .mk _ _ cs => cs

/-- The material disposal in the traverse callback (lines 134-140):
`mat.dispose()` on each element of a material array, or
`child.material.dispose()` on a single material. -/
def disposeMat : MatSlot → MatSlot
  | .noMat => .noMat
  | .single _ => .single true
  | .array ms => .array (ms.map fun _ => true)

mutual

/-- The traverse callback of `createBox` (lines 132-141) applied to a
node and, recursively, to all its descendants: dispose the geometry if
present and dispose every material. -/
def disposeNode : SceneNode → SceneNode
  | .mk g m cs => .mk (g.map fun _ => true) (disposeMat m) (disposeChildren cs)

/-- The traverse recursion over a child list. -/
def disposeChildren : List SceneNode → List SceneNode
  | [] => []
  | c :: cs => disposeNode c :: disposeChildren cs

end

/-- Whether a geometry slot holds no geometry or a disposed one. -/
def geomDisposed : Option Bool → Bool
  | none => true
  | some b => b

/-- Whether every material in a slot is disposed. -/
def matDisposed : MatSlot → Bool
  | .noMat => true
  | .single b => b
  | .array ms => ms.all id

mutual

/-- Every geometry and every material in the tree is disposed. -/
def nodeDisposed : SceneNode → Bool
  | .mk g m cs => geomDisposed g && matDisposed m && childrenDisposed cs

/-- `nodeDisposed` over a child list. -/
def childrenDisposed : List SceneNode → Bool
  | [] => true
  | c :: cs => nodeDisposed c && childrenDisposed cs

end

theorem geomDisposed_map (g : Option Bool) :
    geomDisposed (g.map fun _ => true) = true := by
  cases g <;> rfl

theorem matDisposed_dispose (m : MatSlot) : matDisposed (disposeMat m) = true := by
  cases m with
  | noMat => rfl
  | single b => rfl
  | array ms => simp [disposeMat, matDisposed, List.all_eq_true]

mutual

theorem nodeDisposed_dispose : ∀ n : SceneNode, nodeDisposed (disposeNode n) = true
  | .mk g m cs => by
    unfold disposeNode nodeDisposed
    rw [geomDisposed_map, matDisposed_dispose, childrenDisposed_dispose cs]
    rfl

theorem childrenDisposed_dispose :
    ∀ l : List SceneNode, childrenDisposed (disposeChildren l) = true
  | [] => rfl
  | c :: cs => by
    unfold disposeChildren childrenDisposed
    rw [nodeDisposed_dispose c, childrenDisposed_dispose cs]
    rfl

end

/-- The scene as the set of root object identities it contains
(`scene.remove(boxGroup)` removes one root object). -/
structure RenderScene where
  members : List ℕ
  deriving DecidableEq

/-- The previous box group: its identity in the scene and its object
tree. -/
structure BoxGroup where
  id : ℕ
  root : SceneNode

/-- The prologue of `createBox` (lines 129-142), run before the new box
group is constructed (line 144): when a previous group exists it is
removed from the scene and its whole tree is traversed, disposing every
geometry and material. -/
def createBoxPrologue (scene : RenderScene) (prev : Option BoxGroup) :
    RenderScene × Option BoxGroup :=
  match prev with
  | none => (scene, none)
  | some g => (⟨scene.members.filter fun i => i ≠ g.id⟩,
      some ⟨g.id, disposeNode g.root⟩)

/-- C8: whenever a previous box group exists at the start of `createBox`,
the prologue (which runs before the new group is built) removes it from
the scene and disposes the geometry of every descendant that has one and
every material — including each element of material arrays — throughout
the old tree. -/
theorem C8_previous_group_disposed (scene : RenderScene) (g : BoxGroup) :
    (createBoxPrologue scene (some g)).2 = some ⟨g.id, disposeNode g.root⟩ ∧
    g.id ∉ ((createBoxPrologue scene (some g)).1).members ∧
    nodeDisposed (disposeNode g.root) = true := by
  refine ⟨rfl, ?_, nodeDisposed_dispose g.root⟩
  simp [createBoxPrologue]

end BananaBox
